import Mathlib

/-!
# Shallow embedding of the smile-client durable NATS consumer

This file embeds the core of `smile_client/smile_client.py` (the
`SmileClient` class: handler resolution, connection/consumer configuration,
the consuming loop, lifecycle callbacks, disconnect, signal handling) and of
`smile_client/cli.py` (`parse_start_date`, `start_listener`), and proves the
spec-level properties about them.

Conventions of the embedding:
- Python strings are Lean `String`s; where character-level reasoning is
  needed (date parsing, `rsplit`) we work on `String.data : List Char`.
- A Python call that may raise is modelled by `PyResult`: normal return or a
  raised exception carrying its message.
- Calls into external libraries (`json.loads`, the NATS client) are modelled
  by their outcomes, supplied as inputs: a delivered message carries the
  outcome of decoding its payload, and `_disconnect`'s two awaited calls
  carry boolean failure switches.
- Side effects (handler invocation, acknowledgment, log lines, connect /
  unsubscribe / close calls) are recorded in an event trace.
-/

/-- Outcome of a Python call: a normal return, or a raised exception
carrying its message. -/
inductive PyResult (α : Type) where
  | ok (a : α)
  | exn (e : String)
deriving DecidableEq

/-- `smile_client/messages/smile_message.py`: immutable value with a subject
and the decoded payload.  The decoded JSON payload is kept opaque as the
string handed over by the decoder. -/
structure SmileMessage where
  subject : String
  data : String
deriving DecidableEq

/-- A message delivered by the broker, as seen by `wrapped_callback`:
its subject and the outcome of `json.loads(message.data.decode())`
(`exn` is a `json.JSONDecodeError`). -/
structure NatsMessage where
  subject : String
  jsonLoads : PyResult String
deriving DecidableEq

/-- Observable events of the client: handler invocations, acknowledgments,
connection-management calls and log lines. -/
inductive Event where
  | resolveHandler (path : String)
  | connect (durable : Option String)
  | handlerInvoked (m : SmileMessage)
  | ack (subject : String)
  | unsubscribeCall
  | closeCall
  | disconnectCall
  | logInfo (s : String)
  | logWarning (s : String)
  | logError (s : String)
deriving DecidableEq

/-- `wrapped_callback` in `SmileClient.start_consuming`: decode the payload,
wrap it in a `SmileMessage`, call the resolved handler; a decode failure is
caught by `except json.JSONDecodeError` and logged, a handler exception is
caught by `except Exception` and logged.  Every path returns normally. -/
def wrapped_callback (callback : SmileMessage → PyResult Unit)
    (message : NatsMessage) : List Event :=
  match message.jsonLoads with
  | PyResult.exn _ =>
      [Event.logError ("Invalid JSON received: " ++ message.subject)]
  | PyResult.ok data =>
      let smile_message_object : SmileMessage := ⟨message.subject, data⟩
      match callback smile_message_object with
      | PyResult.ok _ => [Event.handlerInvoked smile_message_object]
      | PyResult.exn e =>
          [Event.handlerInvoked smile_message_object,
           Event.logError ("Error processing message: " ++ e)]

/-- Body of the message iteration in `start_consuming`:
`wrapped_callback(msg)` followed unconditionally by `await msg.ack()`. -/
def consumeMessage (callback : SmileMessage → PyResult Unit)
    (message : NatsMessage) : List Event :=
  wrapped_callback callback message ++ [Event.ack message.subject]

/-- Events produced by iterating one subscription feed
(`async for msg in self.sub.messages`). -/
def sessionEvents (callback : SmileMessage → PyResult Unit)
    (msgs : List NatsMessage) : List Event :=
  msgs.flatMap (consumeMessage callback)

/-- Mutable per-instance state touched by the lifecycle callbacks, the
signal handler and `_disconnect`: the `_stop_event` flag and whether the
`self.nc` / `self.sub` handles are held (non-`None`). -/
structure ClientState where
  stopFlag : Bool
  nc : Bool
  sub : Bool
deriving DecidableEq

/-- `asyncio.Event.set`: sets the flag, regardless of its previous value. -/
def stopEventSet (_flag : Bool) : Bool :=
  true

/-- The closure registered by `_setup_signal_handlers` for SIGINT and
SIGTERM: logs and sets `_stop_event`. -/
def signal_handler (st : ClientState) (signum : Nat) : ClientState × List Event :=
  ({ st with stopFlag := stopEventSet st.stopFlag },
   [Event.logInfo ("Received signal " ++ toString signum ++ ", initiating shutdown...")])

/-- `SmileClient._on_error`: log and set `_stop_event`. -/
def on_error (st : ClientState) (e : String) : ClientState × List Event :=
  ({ st with stopFlag := stopEventSet st.stopFlag },
   [Event.logError ("NATS internal error: " ++ e)])

/-- `SmileClient._on_disconnected`: log only. -/
def on_disconnected (st : ClientState) : ClientState × List Event :=
  (st, [Event.logWarning "Disconnected from NATS"])

/-- `SmileClient._on_reconnected`: log only. -/
def on_reconnected (st : ClientState) : ClientState × List Event :=
  (st, [Event.logInfo "Reconnected to NATS"])

/-- `SmileClient._on_closed`: log and set `_stop_event`. -/
def on_closed (st : ClientState) : ClientState × List Event :=
  ({ st with stopFlag := stopEventSet st.stopFlag },
   [Event.logError "Connection closed permanently"])

/-- The `if self.nc:` half of the `try` body of `_disconnect`:
`await self.nc.close()` (which may raise, switch `closeFails`), then
`self.nc = None` and an info log.  Returns the state, the events, and the
exception raised inside the body, if any. -/
def disconnect_close_step (st : ClientState) (ev : List Event)
    (closeFails : Bool) : ClientState × List Event × Option String :=
  if st.nc then
    if closeFails then
      (st, ev ++ [Event.closeCall], some "close failed")
    else
      ({ st with nc := false },
       ev ++ [Event.closeCall, Event.logInfo "Disconnected from NATS"], none)
  else
    (st, ev, none)

/-- The whole `try` body of `_disconnect`: `if self.sub:` then
`await self.sub.unsubscribe()` (which may raise, switch `unsubFails`),
`self.sub = None`, an info log, and then the `if self.nc:` half.  An
exception raised while unsubscribing aborts the body before the close. -/
def disconnect_try (st : ClientState) (unsubFails closeFails : Bool) :
    ClientState × List Event × Option String :=
  if st.sub then
    if unsubFails then
      (st, [Event.unsubscribeCall], some "unsubscribe failed")
    else
      disconnect_close_step { st with sub := false }
        [Event.unsubscribeCall, Event.logInfo "Unsubscribed from NATS"] closeFails
  else
    disconnect_close_step st [] closeFails

/-- `SmileClient._disconnect`: the `try` body with its single
`except Exception` clause, which logs any failure and returns normally. -/
def client_disconnect (st : ClientState) (unsubFails closeFails : Bool) :
    ClientState × List Event :=
  match disconnect_try st unsubFails closeFails with
  | (st1, ev, none) => (st1, ev)
  | (st1, ev, some e) =>
      (st1, ev ++ [Event.logError ("Error during disconnect: " ++ e)])

/-- A `datetime.datetime` value: calendar fields plus whether `tzinfo` is
UTC (`false` = naive). -/
structure DateTime where
  year : Nat
  month : Nat
  day : Nat
  hour : Nat
  minute : Nat
  second : Nat
  microsecond : Nat
  tzUtc : Bool
deriving DecidableEq

/-- Gregorian leap year, as `calendar`/`datetime` use it. -/
def isLeapYear (y : Nat) : Bool :=
  (y % 4 == 0 && y % 100 != 0) || y % 400 == 0

/-- Number of days in a month, as `datetime.datetime` validates it. -/
def daysInMonth (y m : Nat) : Nat :=
  if m == 2 then (if isLeapYear y then 29 else 28)
  else if m == 4 || m == 6 || m == 9 || m == 11 then 30
  else 31

/-- Split a character list on the character `'-'` (the behaviour of
`str.split` with a single-character separator). -/
def splitOnDash : List Char → List (List Char)
  | [] => [[]]
  | c :: rest =>
      if c = '-' then [] :: splitOnDash rest
      else
        match splitOnDash rest with
        | [] => [[c]]
        | h :: t => (c :: h) :: t

/-- Numeric value of a digit character. -/
def digitToNat (c : Char) : Nat :=
  c.toNat - 48

/-- Value of a most-significant-first digit string, as `int` computes it. -/
def charsToNat (l : List Char) : Nat :=
  l.foldl (fun a c => 10 * a + digitToNat c) 0

/-- A nonempty run of decimal digits. -/
def allDigits (l : List Char) : Bool :=
  !l.isEmpty && l.all Char.isDigit

/-- `datetime.datetime.strptime(s, "%Y-%m-%d")` on the characters of `s`:
`%Y` matches exactly four digits, `%m` and `%d` match one or two digits with
`%m` in 1..12 and `%d` in 1..31, the three fields are joined by literal
dashes with nothing left over, and the `datetime` constructor then checks
`1 <= year` and that the day exists in the month.  On success the result is
a naive datetime at midnight of that date. -/
def parseFieldsYmd (ys ms ds : List Char) : Option DateTime :=
  if ys.length = 4 ∧ allDigits ys = true
      ∧ (ms.length = 1 ∨ ms.length = 2) ∧ allDigits ms = true
      ∧ (ds.length = 1 ∨ ds.length = 2) ∧ allDigits ds = true then
    let y := charsToNat ys
    let m := charsToNat ms
    let d := charsToNat ds
    if 1 ≤ y ∧ 1 ≤ m ∧ m ≤ 12 ∧ 1 ≤ d ∧ d ≤ daysInMonth y m then
      some ⟨y, m, d, 0, 0, 0, 0, false⟩
    else none
  else none

/-- The overall shape of `strptime(s, "%Y-%m-%d")`: exactly three
dash-separated fields, validated by `parseFieldsYmd`. -/
def strptimeYmdChars (l : List Char) : Option DateTime :=
  match splitOnDash l with
  | [ys, ms, ds] => parseFieldsYmd ys ms ds
  | _ => none

/-- The `replace` call of `parse_start_date`: set `tzinfo` to UTC and zero
the time-of-day fields. -/
def dtReplaceUtcMidnight (dt : DateTime) : DateTime :=
  ⟨dt.year, dt.month, dt.day, 0, 0, 0, 0, true⟩

/-- `parse_start_date` from `smile_client/cli.py` (the Django management
command `run_smile_consumer.py` has the same body, raising `CommandError`
instead of `ValueError`).  `None` and the empty string are falsy, so
`if not date_str: return None` turns them into "no start time"; otherwise
`strptime` either succeeds (and the result is normalised to UTC midnight)
or its `ValueError` is caught and re-raised with a descriptive message. -/
def parse_start_date_str (ds : String) : Except String (Option DateTime) :=
  if ds.data.isEmpty then Except.ok none
  else
    match strptimeYmdChars ds.data with
    | some dt => Except.ok (some (dtReplaceUtcMidnight dt))
    | none =>
        Except.error
          ("Invalid date format: " ++ ds ++ ". Expected YYYY-MM-DD format.")

/-- The `None` case of the falsy guard: an absent date is "no start
time". -/
def parse_start_date : Option String → Except String (Option DateTime)
  | none => Except.ok none
  | some ds => parse_start_date_str ds

/-- The recognised keys of the `SMILE_SETTINGS` / config-file dictionary;
`none` models an absent key (`dict.get` returns `None`). -/
structure SmileSettings where
  NATS_URL : Option String
  NATS_USERNAME : Option String
  NATS_PASSWORD : Option String
  NATS_SSL_CERTFILE : Option String
  NATS_SSL_KEYFILE : Option String
  NATS_ROOT_CA : Option String
  NATS_FILTER_SUBJECT : Option String
  NATS_DURABLE : Option String
  CLIENT_TIMEOUT : Option ℚ
  CALLBACK : Option String
deriving DecidableEq

/-- The fields a `SmileClient` instance carries after `__init__`
(`CLIENT_TIMEOUT` is a float in the source; it is only ever stored, so its
numeric type is modelled by `ℚ`). -/
structure SmileClient where
  servers : Option String
  user : Option String
  password : Option String
  ssl_certfile : Option String
  ssl_keyfile : Option String
  nats_durable : Option String
  filter_subject : Option String
  nats_root_ca : Option String
  client_timeout : ℚ
  handler_path : String
deriving DecidableEq

/-- `SmileClient.__init__` from a settings dictionary: plain `get` for most
keys, `get` with default `3600.0` for `CLIENT_TIMEOUT` and with the default
callback path for `CALLBACK`.  (`_stop_event` starts cleared; it is part of
`ClientState`, not of this record.) -/
def smileClientInit (s : SmileSettings) : SmileClient :=
  ⟨s.NATS_URL, s.NATS_USERNAME, s.NATS_PASSWORD, s.NATS_SSL_CERTFILE,
   s.NATS_SSL_KEYFILE, s.NATS_DURABLE, s.NATS_FILTER_SUBJECT, s.NATS_ROOT_CA,
   s.CLIENT_TIMEOUT.getD 3600,
   s.CALLBACK.getD "smile_client.default_callback.smile_callback"⟩

/-- Python truthiness of an optional string: `None` and `""` are falsy. -/
def truthyStr : Option String → Bool
  | none => false
  | some s => !s.data.isEmpty

/-- The TLS context built in `connect` when both a certificate and a key
file are configured. -/
structure TlsContext where
  cafile : Option String
  certfile : String
  keyfile : String
deriving DecidableEq

/-- `if self.ssl_certfile and self.ssl_keyfile:` — build the context,
loading the root CA into it only when one is configured. -/
def buildTls (c : SmileClient) : Option TlsContext :=
  match c.ssl_certfile, c.ssl_keyfile with
  | some cf, some kf =>
      if !cf.data.isEmpty && !kf.data.isEmpty then
        some ⟨if truthyStr c.nats_root_ca then c.nats_root_ca else none, cf, kf⟩
      else none
  | _, _ => none

/-- The `options` dictionary handed to `nats.connect` (the four lifecycle
callbacks are the functions modelled above and are omitted from the
record). -/
structure ConnectOptions where
  servers : Option String
  user : Option String
  password : Option String
  max_reconnect_attempts : Int
  reconnect_time_wait : Nat
  tls : Option TlsContext
deriving DecidableEq

/-- The options built at the top of `SmileClient.connect`. -/
def buildOptions (c : SmileClient) : ConnectOptions :=
  ⟨c.servers, c.user, c.password, -1, 30, buildTls c⟩

/-- The delivery policy placed in the consumer config: the enum member
`DeliverPolicy.BY_START_TIME` or the string `"new"`. -/
inductive DeliverPolicyVal where
  | byStartTime
  | new
deriving DecidableEq

/-- The `ConsumerConfig` built in `SmileClient.connect`. -/
structure ConsumerCfg where
  filter_subject : Option String
  ack_policy : String
  deliver_policy : DeliverPolicyVal
  opt_start_time : Option DateTime
deriving DecidableEq

/-- The `config` dictionary of `SmileClient.connect`: always
`ack_policy="explicit"` and the client's filter subject; `if start_time:`
(a datetime is always truthy, `None` is falsy) selects `BY_START_TIME` with
`opt_start_time=start_time`, else `"new"`. -/
def buildConsumerConfig (c : SmileClient) (start_time : Option DateTime) :
    ConsumerCfg :=
  match start_time with
  | some t => ⟨c.filter_subject, "explicit", DeliverPolicyVal.byStartTime, some t⟩
  | none => ⟨c.filter_subject, "explicit", DeliverPolicyVal.new, none⟩

/-- A module attribute as `get_handler` distinguishes them: a callable
(with its behaviour on a `SmileMessage`) or a non-callable value. -/
inductive PyAttr where
  | callableFn (f : SmileMessage → PyResult Unit)
  | notCallable

/-- An importable module: its attribute dictionary. -/
structure PyModule where
  attrs : List (String × PyAttr)

/-- The import system visible to `import_module`. -/
structure PyEnv where
  modules : List (String × PyModule)

/-- Dictionary lookup by string key. -/
def lookupA {α : Type} (l : List (String × α)) (k : String) : Option α :=
  (l.find? (fun p => p.1 == k)).map Prod.snd

/-- Split a character list at its LAST `'.'`, if any
(`str.rsplit` with separator `'.'` and maxsplit 1). -/
def rsplitDotAux : List Char → Option (List Char × List Char)
  | [] => none
  | c :: rest =>
      match rsplitDotAux rest with
      | some (b, a) => some (c :: b, a)
      | none => if c = '.' then some ([], rest) else none

/-- `handler_path.rsplit('.', 1)` when it yields two pieces; `none` when the
string holds no dot (in which case the two-variable unpacking in the source
raises a `ValueError`). -/
def rsplitDot (s : String) : Option (String × String) :=
  match rsplitDotAux s.data with
  | some (b, a) => some (String.mk b, String.mk a)
  | none => none

/-- `SmileClient.get_handler`: split the path, import the module, fetch the
attribute, and require it to be callable.  `ImportError` and
`AttributeError` are wrapped into a `ValueError` mentioning the path; the
not-callable `ValueError` and the unpacking `ValueError` propagate as
they are. -/
def get_handler (env : PyEnv) (handler_path : String) :
    Except String (SmileMessage → PyResult Unit) :=
  match rsplitDot handler_path with
  | none => Except.error "not enough values to unpack"
  | some (module_path, handler_name) =>
      match lookupA env.modules module_path with
      | none =>
          Except.error ("Could not import handler " ++ handler_path
            ++ ": No module named " ++ module_path)
      | some m =>
          match lookupA m.attrs handler_name with
          | none =>
              Except.error ("Could not import handler " ++ handler_path
                ++ ": module " ++ module_path ++ " has no attribute " ++ handler_name)
          | some (PyAttr.callableFn f) => Except.ok f
          | some PyAttr.notCallable =>
              Except.error ("Handler " ++ handler_path ++ " is not callable")

/-- Whether an import/lookup/callability check would succeed: the module can
be located. -/
def moduleLocated (env : PyEnv) (module_path : String) : Bool :=
  (lookupA env.modules module_path).isSome

/-- The named attribute exists on the located module. -/
def attributeExists (env : PyEnv) (module_path handler_name : String) : Bool :=
  match lookupA env.modules module_path with
  | none => false
  | some m => (lookupA m.attrs handler_name).isSome

/-- The named attribute exists and is callable. -/
def attributeCallable (env : PyEnv) (module_path handler_name : String) : Bool :=
  match lookupA env.modules module_path with
  | none => false
  | some m =>
      match lookupA m.attrs handler_name with
      | some (PyAttr.callableFn _) => true
      | _ => false

/-- Whether an `Except` is an error. -/
def isErr {α : Type} : Except String α → Bool
  | Except.error _ => true
  | Except.ok _ => false

/-- One pass through the subscription feed, as the loop model sees it: the
messages delivered before the feed ended, and whether the shutdown flag got
set while the pass ran (by a signal or a fatal lifecycle callback). -/
structure Session where
  msgs : List NatsMessage
  flagSetDuringSession : Bool

/-- The `while not self._stop_event.is_set():` loop of `start_consuming`
plus the final disconnect: at each check, if the flag is set the loop exits,
logs, and calls `_disconnect`; otherwise it connects (with the client's
durable name), logs, drains one feed, and re-checks with the flag as left
by that pass.  Returns the event trace and whether the run reached the
final disconnect (`false` = the supplied schedule ended with the loop still
running). -/
def runLoop (c : SmileClient) (callback : SmileMessage → PyResult Unit) :
    Bool → List Session → List Event × Bool
  | true, _ =>
      ([Event.logInfo "Shutdown event received, stopping consumer...",
        Event.disconnectCall], true)
  | false, [] => ([], false)
  | false, s :: rest =>
      let next := runLoop c callback s.flagSetDuringSession rest
      (Event.connect c.nats_durable :: Event.logInfo "Starting consumer..."
         :: sessionEvents callback s.msgs ++ next.1,
       next.2)

/-- `SmileClient.start_consuming`: set up signal handlers, resolve the
handler once (any resolution failure propagates before anything else
happens), then run the consuming loop with the resolved handler. -/
def start_consuming (env : PyEnv) (c : SmileClient) (sessions : List Session) :
    Except String (List Event × Bool) :=
  match get_handler env c.handler_path with
  | Except.error e => Except.error e
  | Except.ok callback =>
      Except.ok
        (Event.resolveHandler c.handler_path :: (runLoop c callback false sessions).1,
         (runLoop c callback false sessions).2)

/-- `start_listener` from `smile_client/cli.py`: build the client from the
loaded config, parse the start date, and only then run `start_consuming`.
A date-parsing failure propagates before any connect. -/
def start_listener (config : SmileSettings) (env : PyEnv)
    (start_date : Option String) (sessions : List Session) :
    Except String (List Event × Bool) :=
  let client := smileClientInit config
  match parse_start_date start_date with
  | Except.error e => Except.error e
  | Except.ok _parsed => start_consuming env client sessions

/-- Event classifier: a handler-resolution event. -/
def isResolveEvent : Event → Bool
  | Event.resolveHandler _ => true
  | _ => false

/-- Event classifier: a connect attempt. -/
def isConnectEvent : Event → Bool
  | Event.connect _ => true
  | _ => false

/-- Event classifier: a call into `_disconnect`. -/
def isDisconnectCall : Event → Bool
  | Event.disconnectCall => true
  | _ => false

/-- The character for a decimal digit value. -/
def charOfDigit : Nat → Char
  | 0 => '0'
  | 1 => '1'
  | 2 => '2'
  | 3 => '3'
  | 4 => '4'
  | 5 => '5'
  | 6 => '6'
  | 7 => '7'
  | 8 => '8'
  | 9 => '9'
  | _ => '*'

/-- Decimal digit characters of `n`, most significant first (empty for 0;
callers pad). -/
def digitsOfNat (n : Nat) : List Char :=
  ((Nat.digits 10 n).reverse).map charOfDigit

/-- Zero-pad a digit run on the left to width `k`. -/
def padLeft (k : Nat) (l : List Char) : List Char :=
  List.replicate (k - l.length) '0' ++ l

/-- The canonical zero-padded `YYYY-MM-DD` rendering of a date. -/
def formatYMD (y m d : Nat) : String :=
  String.mk (padLeft 4 (digitsOfNat y)
    ++ '-' :: (padLeft 2 (digitsOfNat m) ++ '-' :: padLeft 2 (digitsOfNat d)))

/-- A calendar-valid date within `datetime`'s range. -/
def validDate (y m d : Nat) : Prop :=
  1 ≤ y ∧ y ≤ 9999 ∧ 1 ≤ m ∧ m ≤ 12 ∧ 1 ≤ d ∧ d ≤ daysInMonth y m

/-- UTC midnight of a date. -/
def utcMidnight (y m d : Nat) : DateTime :=
  ⟨y, m, d, 0, 0, 0, 0, true⟩

/-- A handler that always returns normally; used to instantiate theorems at
concrete inputs. -/
def cbOk : SmileMessage → PyResult Unit :=
  fun _ => PyResult.ok Unit.unit

/-- A handler that always raises; used to instantiate theorems at concrete
inputs. -/
def cbBoom : SmileMessage → PyResult Unit :=
  fun _ => PyResult.exn "boom"

/-- A concrete well-formed delivered message. -/
def msgWellFormed : NatsMessage :=
  ⟨"orders.created", PyResult.ok "payload"⟩

/-- A concrete message whose payload is not valid JSON. -/
def msgBadJson : NatsMessage :=
  ⟨"orders.created", PyResult.exn "Expecting value: line 1 column 1"⟩

/-- An import system with no modules. -/
def envEmpty : PyEnv :=
  ⟨[]⟩

/-- An import system holding the module `pkg.mod` with one callable `fn`. -/
def envWithFn : PyEnv :=
  ⟨[("pkg.mod", ⟨[("fn", PyAttr.callableFn cbOk)]⟩)]⟩

/-- A concrete client configuration. -/
def clientW : SmileClient :=
  ⟨some "nats://localhost:4222", some "u", some "p", none, none,
   some "durable1", some "orders.created", none, 3600, "pkg.mod.fn"⟩

/-- A concrete client state with both handles held and the flag clear. -/
def stBothHeld : ClientState :=
  ⟨false, true, true⟩

/-- A concrete settings dictionary. -/
def settingsW : SmileSettings :=
  ⟨some "nats://localhost:4222", some "u", some "p", none, none, none,
   some "orders.created", some "durable1", none, none⟩

/-- C5: `connect` always builds the consumer configuration with explicit
acknowledgment policy, and selects the delivery policy by the start time:
with a start time the policy is `by_start_time` with exactly that timestamp,
and without one the policy is `new`. -/
theorem connect_config_ack_and_delivery (c : SmileClient) (t : DateTime) :
    (buildConsumerConfig c (some t)).ack_policy = "explicit" ∧
    (buildConsumerConfig c none).ack_policy = "explicit" ∧
    (buildConsumerConfig c (some t)).deliver_policy = DeliverPolicyVal.byStartTime ∧
    (buildConsumerConfig c (some t)).opt_start_time = some t ∧
    (buildConsumerConfig c none).deliver_policy = DeliverPolicyVal.new ∧
    (buildConsumerConfig c none).opt_start_time = none :=
  ⟨rfl, rfl, rfl, rfl, rfl, rfl⟩

/-- C9: among the four lifecycle callbacks, `_on_error` and `_on_closed`
set the shutdown flag (leaving the connection handles unchanged), while
`_on_disconnected` and `_on_reconnected` only log and leave the whole
client state unchanged. -/
theorem lifecycle_callbacks_frame (st : ClientState) (e : String) :
    (on_error st e).1.stopFlag = true ∧
    (on_error st e).1.nc = st.nc ∧ (on_error st e).1.sub = st.sub ∧
    (on_closed st).1.stopFlag = true ∧
    (on_closed st).1.nc = st.nc ∧ (on_closed st).1.sub = st.sub ∧
    (on_disconnected st).1 = st ∧ (on_reconnected st).1 = st :=
  ⟨rfl, rfl, rfl, rfl, rfl, rfl, rfl, rfl⟩

/-- C1 counterexample: a well-formed message whose handler raises is still
acknowledged, so "acknowledged iff the handler returns without error" is
false at this input. -/
theorem ack_iff_handler_ok_cex :
    ¬(Event.ack "orders.created" ∈ consumeMessage cbBoom msgWellFormed ↔
        cbBoom ⟨"orders.created", "payload"⟩ = PyResult.ok Unit.unit) := by
  decide

/-- C1 (amended): for every well-formed payload the handler is invoked
exactly once, as the first step of processing the message, and the message
is acknowledged at the end of the iteration unconditionally — whether or not
the handler raised. -/
theorem wellformed_handled_once_then_always_acked
    (callback : SmileMessage → PyResult Unit) (msg : NatsMessage) (data : String)
    (h : msg.jsonLoads = PyResult.ok data) :
    (consumeMessage callback msg).head?
        = some (Event.handlerInvoked ⟨msg.subject, data⟩) ∧
    (consumeMessage callback msg).count (Event.handlerInvoked ⟨msg.subject, data⟩) = 1 ∧
    (consumeMessage callback msg).getLast? = some (Event.ack msg.subject) ∧
    (consumeMessage callback msg).count (Event.ack msg.subject) = 1 := by
  simp only [consumeMessage, wrapped_callback, h]
  cases hcb : callback ⟨msg.subject, data⟩ <;>
    exact ⟨rfl, by simp [List.count_cons], rfl, by simp [List.count_cons]⟩

/-- C1 witness: the amended theorem applied to a concrete well-formed
message with a handler that raises. -/
theorem wellformed_handled_once_then_always_acked_witness :
    (consumeMessage cbBoom msgWellFormed).head?
        = some (Event.handlerInvoked ⟨"orders.created", "payload"⟩) ∧
    (consumeMessage cbBoom msgWellFormed).count
        (Event.handlerInvoked ⟨"orders.created", "payload"⟩) = 1 ∧
    (consumeMessage cbBoom msgWellFormed).getLast? = some (Event.ack "orders.created") ∧
    (consumeMessage cbBoom msgWellFormed).count (Event.ack "orders.created") = 1 :=
  wellformed_handled_once_then_always_acked cbBoom msgWellFormed "payload" rfl

/-- C2 counterexample: a message whose payload is not valid JSON is still
acknowledged, contradicting "does not acknowledge that message". -/
theorem malformed_json_not_acked_cex :
    msgBadJson.jsonLoads = PyResult.exn "Expecting value: line 1 column 1" ∧
    Event.ack "orders.created" ∈ consumeMessage cbOk msgBadJson := by
  decide

/-- C2 (amended): for every message whose payload is not valid JSON, the
loop logs an error, never invokes the handler, raises nothing (the
iteration returns a normal event list ending in the acknowledgment of that
message), and continues with the subsequent messages of the feed. -/
theorem malformed_json_logged_loop_continues
    (callback : SmileMessage → PyResult Unit) (msg : NatsMessage) (e : String)
    (rest : List NatsMessage)
    (h : msg.jsonLoads = PyResult.exn e) :
    consumeMessage callback msg
      = [Event.logError ("Invalid JSON received: " ++ msg.subject),
         Event.ack msg.subject] ∧
    (∀ m : SmileMessage, Event.handlerInvoked m ∉ consumeMessage callback msg) ∧
    sessionEvents callback (msg :: rest)
      = consumeMessage callback msg ++ sessionEvents callback rest := by
  refine ⟨?_, ?_, ?_⟩
  · simp only [consumeMessage, wrapped_callback, h]
    rfl
  · intro m
    simp only [consumeMessage, wrapped_callback, h]
    simp
  · simp [sessionEvents]


/-- C2 witness: the amended theorem applied to a concrete malformed
message followed by one further message. -/
theorem malformed_json_logged_loop_continues_witness :
    consumeMessage cbOk msgBadJson
      = [Event.logError "Invalid JSON received: orders.created",
         Event.ack "orders.created"] ∧
    (∀ m : SmileMessage, Event.handlerInvoked m ∉ consumeMessage cbOk msgBadJson) ∧
    sessionEvents cbOk (msgBadJson :: [msgWellFormed])
      = consumeMessage cbOk msgBadJson ++ sessionEvents cbOk [msgWellFormed] :=
  malformed_json_logged_loop_continues cbOk msgBadJson
    "Expecting value: line 1 column 1" [msgWellFormed] rfl

/-- C3 counterexample: with both handles held, a failure while unsubscribing
means the close is never attempted (the connection handle stays held), so
the two steps are not independently best-effort. -/
theorem unsub_failure_skips_close_cex :
    (client_disconnect stBothHeld true false).2
      = [Event.unsubscribeCall,
         Event.logError "Error during disconnect: unsubscribe failed"] ∧
    Event.closeCall ∉ (client_disconnect stBothHeld true false).2 ∧
    (client_disconnect stBothHeld true false).1.nc = true := by
  decide

/-- C3 (amended): `_disconnect` unsubscribes if a subscription is held and
then closes the connection if one is held, but both steps sit in a single
protective block: a failure while unsubscribing is logged and aborts the
disconnect, skipping the close; when unsubscribing succeeds (or no
subscription is held) the close is attempted whenever a connection is held;
and any failure inside the block is logged and never raised to the
caller. -/
theorem disconnect_single_try_best_effort (st : ClientState) (uf cf : Bool) :
    (st.sub = true → uf = true →
       client_disconnect st uf cf
         = (st, [Event.unsubscribeCall,
                 Event.logError "Error during disconnect: unsubscribe failed"])) ∧
    (st.sub = true → uf = false → st.nc = true →
       Event.closeCall ∈ (client_disconnect st uf cf).2) ∧
    (st.sub = false → st.nc = true →
       Event.closeCall ∈ (client_disconnect st uf cf).2) ∧
    (∀ e, (disconnect_try st uf cf).2.2 = some e →
       (client_disconnect st uf cf).2
         = (disconnect_try st uf cf).2.1
             ++ [Event.logError ("Error during disconnect: " ++ e)]) := by
  obtain ⟨f, nc, sub⟩ := st
  cases nc <;> cases sub <;> cases uf <;> cases cf <;>
    simp [client_disconnect, disconnect_try, disconnect_close_step]

/-- C3 witness: the amended theorem applied with both handles held and a
failing unsubscribe. -/
theorem disconnect_single_try_best_effort_witness :
    client_disconnect stBothHeld true false
      = (stBothHeld, [Event.unsubscribeCall,
          Event.logError "Error during disconnect: unsubscribe failed"]) :=
  (disconnect_single_try_best_effort stBothHeld true false).1 rfl rfl

/-- Every event of one message iteration is a handler invocation, an
acknowledgment or a log line — never a connect, disconnect or handler
resolution. -/
theorem consumeMessage_classify (cb : SmileMessage → PyResult Unit)
    (msg : NatsMessage) (e : Event) (h : e ∈ consumeMessage cb msg) :
    isConnectEvent e = false ∧ isDisconnectCall e = false ∧ isResolveEvent e = false := by
  obtain ⟨subj, jl⟩ := msg
  cases jl with
  | exn s =>
      simp only [consumeMessage, wrapped_callback, List.mem_append,
        List.mem_cons, List.not_mem_nil, or_false] at h
      rcases h with h | h <;> subst h <;> exact ⟨rfl, rfl, rfl⟩
  | ok data =>
      cases hcb : cb ⟨subj, data⟩ with
      | ok a =>
          simp only [consumeMessage, wrapped_callback, hcb, List.mem_append,
            List.mem_cons, List.not_mem_nil, or_false] at h
          rcases h with h | h <;> subst h <;> exact ⟨rfl, rfl, rfl⟩
      | exn s =>
          simp only [consumeMessage, wrapped_callback, hcb, List.mem_append,
            List.mem_cons, List.not_mem_nil, or_false] at h
          rcases h with (h | h) | h <;> subst h <;> exact ⟨rfl, rfl, rfl⟩

/-- Every event of one feed pass is a per-message event. -/
theorem sessionEvents_classify (cb : SmileMessage → PyResult Unit)
    (msgs : List NatsMessage) (e : Event) (h : e ∈ sessionEvents cb msgs) :
    isConnectEvent e = false ∧ isDisconnectCall e = false ∧ isResolveEvent e = false := by
  induction msgs with
  | nil => simp [sessionEvents] at h
  | cons m rest ih =>
      simp only [sessionEvents, List.flatMap_cons, List.mem_append] at h
      rcases h with h | h
      · exact consumeMessage_classify cb m e h
      · exact ih (by simpa [sessionEvents] using h)

/-- A feed pass contains no call into `_disconnect`. -/
theorem sessionEvents_countP_disconnect (cb : SmileMessage → PyResult Unit)
    (msgs : List NatsMessage) :
    (sessionEvents cb msgs).countP isDisconnectCall = 0 :=
  List.countP_eq_zero.mpr (fun e he => by
    simp [(sessionEvents_classify cb msgs e he).2.1])

/-- A feed pass contains no handler-resolution event. -/
theorem sessionEvents_countP_resolve (cb : SmileMessage → PyResult Unit)
    (msgs : List NatsMessage) :
    (sessionEvents cb msgs).countP isResolveEvent = 0 :=
  List.countP_eq_zero.mpr (fun e he => by
    simp [(sessionEvents_classify cb msgs e he).2.2])

/-- The consuming loop makes exactly one `_disconnect` call when it runs to
completion, and none while the schedule is still open. -/
theorem runLoop_countP_disconnect (c : SmileClient)
    (cb : SmileMessage → PyResult Unit) :
    ∀ (flag : Bool) (ss : List Session),
      ((runLoop c cb flag ss).1.countP isDisconnectCall)
        = (if (runLoop c cb flag ss).2 then 1 else 0)
  | true, _ => by simp [runLoop, List.countP_cons, isDisconnectCall]
  | false, [] => by simp [runLoop]
  | false, s :: rest => by
      have ih := runLoop_countP_disconnect c cb s.flagSetDuringSession rest
      simp [runLoop, List.countP_cons, List.countP_append,
        sessionEvents_countP_disconnect, isDisconnectCall, ih]

/-- The consuming loop never resolves a handler. -/
theorem runLoop_countP_resolve (c : SmileClient)
    (cb : SmileMessage → PyResult Unit) :
    ∀ (flag : Bool) (ss : List Session),
      ((runLoop c cb flag ss).1.countP isResolveEvent) = 0
  | true, _ => by simp [runLoop, List.countP_cons, isResolveEvent]
  | false, [] => by simp [runLoop]
  | false, s :: rest => by
      have ih := runLoop_countP_resolve c cb s.flagSetDuringSession rest
      simp [runLoop, List.countP_cons, List.countP_append,
        sessionEvents_countP_resolve, isResolveEvent, ih]

/-- Every connect attempt made by the consuming loop uses the client's
durable name. -/
theorem runLoop_connect_durable (c : SmileClient)
    (cb : SmileMessage → PyResult Unit) :
    ∀ (flag : Bool) (ss : List Session) (d : Option String),
      Event.connect d ∈ (runLoop c cb flag ss).1 → d = c.nats_durable
  | true, _, d => by intro h; simp [runLoop] at h
  | false, [], d => by intro h; simp [runLoop] at h
  | false, s :: rest, d => by
      intro h
      simp only [runLoop, List.mem_cons, List.mem_append] at h
      rcases h with (h | h | h) | h
      · injection h
      · exact absurd h (by simp)
      · exact absurd ((sessionEvents_classify cb s.msgs _ h).1)
          (by simp [isConnectEvent])
      · exact runLoop_connect_durable c cb s.flagSetDuringSession rest d h

/-- The consuming loop is insensitive to every client field except the
durable name it passes to `connect`. -/
theorem runLoop_client_congr (c c2 : SmileClient)
    (h : c.nats_durable = c2.nats_durable) (cb : SmileMessage → PyResult Unit) :
    ∀ (flag : Bool) (ss : List Session),
      runLoop c cb flag ss = runLoop c2 cb flag ss
  | true, ss => by cases ss <;> rfl
  | false, [] => rfl
  | false, s :: rest => by
      have ih := runLoop_client_congr c c2 h cb s.flagSetDuringSession rest
      simp [runLoop, ih, h]

/-- `_disconnect` never touches the shutdown flag. -/
theorem client_disconnect_stopFlag (st : ClientState) (uf cf : Bool) :
    (client_disconnect st uf cf).1.stopFlag = st.stopFlag := by
  obtain ⟨f, nc, sub⟩ := st
  cases nc <;> cases sub <;> cases uf <;> cases cf <;> rfl

/-- With the shutdown flag set, the loop check fails immediately: the run
logs, calls `_disconnect` once, and terminates. -/
theorem runLoop_flag_set (c : SmileClient) (cb : SmileMessage → PyResult Unit)
    (ss : List Session) :
    runLoop c cb true ss
      = ([Event.logInfo "Shutdown event received, stopping consumer...",
          Event.disconnectCall], true) := by
  cases ss <;> rfl

/-- C6: once the shutdown flag is set it is never cleared by any operation
of the client and no new connect attempt begins (the loop goes straight to
its single disconnect); when a feed ends with the flag still clear the loop
re-enters with a fresh connect against the same durable name; when a feed
ends with the flag set the loop logs, disconnects, and terminates; and
every connect the loop ever makes uses the client's durable name. -/
theorem loop_shutdown_and_reconnect
    (c : SmileClient) (cb : SmileMessage → PyResult Unit)
    (st : ClientState) (n : Nat) (e : String) (uf cf : Bool)
    (s : Session) (rest sessions : List Session) :
    (runLoop c cb true sessions
       = ([Event.logInfo "Shutdown event received, stopping consumer...",
           Event.disconnectCall], true)) ∧
    ((runLoop c cb true sessions).1.countP isConnectEvent = 0) ∧
    (st.stopFlag = true →
       (signal_handler st n).1.stopFlag = true ∧
       (on_error st e).1.stopFlag = true ∧
       (on_closed st).1.stopFlag = true ∧
       (on_disconnected st).1.stopFlag = true ∧
       (on_reconnected st).1.stopFlag = true ∧
       (client_disconnect st uf cf).1.stopFlag = true) ∧
    (s.flagSetDuringSession = false →
       runLoop c cb false (s :: rest)
         = (Event.connect c.nats_durable :: Event.logInfo "Starting consumer..."
              :: sessionEvents cb s.msgs ++ (runLoop c cb false rest).1,
            (runLoop c cb false rest).2)) ∧
    (s.flagSetDuringSession = true →
       runLoop c cb false (s :: rest)
         = (Event.connect c.nats_durable :: Event.logInfo "Starting consumer..."
              :: sessionEvents cb s.msgs
              ++ [Event.logInfo "Shutdown event received, stopping consumer...",
                  Event.disconnectCall],
            true)) ∧
    (∀ (flag : Bool) (ss : List Session) (d : Option String),
       Event.connect d ∈ (runLoop c cb flag ss).1 → d = c.nats_durable) := by
  refine ⟨runLoop_flag_set c cb sessions, ?_, ?_, ?_, ?_,
    runLoop_connect_durable c cb⟩
  · rw [runLoop_flag_set]
    rfl
  · intro hf
    refine ⟨rfl, rfl, rfl, hf, hf, ?_⟩
    rw [client_disconnect_stopFlag]
    exact hf
  · intro hf
    obtain ⟨msgs, flg⟩ := s
    cases flg
    · rfl
    · simp at hf
  · intro hf
    obtain ⟨msgs, flg⟩ := s
    cases flg
    · simp at hf
    · have hstep : runLoop c cb false ((⟨msgs, true⟩ : Session) :: rest)
          = (Event.connect c.nats_durable :: Event.logInfo "Starting consumer..."
               :: sessionEvents cb msgs ++ (runLoop c cb true rest).1,
             (runLoop c cb true rest).2) := rfl
      rw [hstep, runLoop_flag_set]

/-- C6 witness: the reconnect equation at a concrete client, a session that
left the flag clear, and an empty remaining schedule. -/
theorem loop_shutdown_and_reconnect_witness :
    runLoop clientW cbOk false ((⟨[], false⟩ : Session) :: [])
      = (Event.connect clientW.nats_durable :: Event.logInfo "Starting consumer..."
           :: sessionEvents cbOk (⟨[], false⟩ : Session).msgs
           ++ (runLoop clientW cbOk false []).1,
         (runLoop clientW cbOk false []).2) :=
  (loop_shutdown_and_reconnect clientW cbOk stBothHeld 2 "err" false false
      ⟨[], false⟩ [] []).2.2.2.1 rfl

/-- C7: handler resolution fails exactly when the module cannot be located,
the named attribute does not exist, or the resolved attribute is not
callable; a resolution failure aborts startup before anything else happens;
and on success the consumer resolves the handler exactly once, as its very
first step (before any connect), and uses that one resolved handler for the
whole consuming loop. -/
theorem handler_resolution_exactly (env : PyEnv) (p mp hn : String)
    (c : SmileClient) (sessions : List Session) (ev : List Event) (fin : Bool) :
    (rsplitDot p = some (mp, hn) →
       (isErr (get_handler env p) = true ↔
         (moduleLocated env mp = false ∨ attributeExists env mp hn = false
           ∨ attributeCallable env mp hn = false))) ∧
    (∀ e, get_handler env c.handler_path = Except.error e →
       start_consuming env c sessions = Except.error e) ∧
    (start_consuming env c sessions = Except.ok (ev, fin) →
       ev.head? = some (Event.resolveHandler c.handler_path) ∧
       ev.countP isResolveEvent = 1 ∧
       ∃ f, get_handler env c.handler_path = Except.ok f ∧
         ev = Event.resolveHandler c.handler_path
                :: (runLoop c f false sessions).1) := by
  refine ⟨?_, ?_, ?_⟩
  · intro hsplit
    unfold get_handler
    rw [hsplit]
    cases hm : lookupA env.modules mp with
    | none => simp [isErr, moduleLocated, hm]
    | some md =>
        cases ha : lookupA md.attrs hn with
        | none =>
            simp [isErr, moduleLocated, attributeExists, attributeCallable, hm, ha]
        | some attr =>
            cases attr <;>
              simp [isErr, moduleLocated, attributeExists, attributeCallable, hm, ha]
  · intro e hg
    simp [start_consuming, hg]
  · intro hok
    unfold start_consuming at hok
    cases hg : get_handler env c.handler_path with
    | error e =>
        rw [hg] at hok
        exact absurd hok (by simp)
    | ok f =>
        rw [hg] at hok
        injection hok with hok1
        injection hok1 with hev hfin
        subst hev
        subst hfin
        refine ⟨rfl, ?_, f, rfl, rfl⟩
        simp [List.countP_cons, isResolveEvent, runLoop_countP_resolve]

/-- C7 witness: with a module environment holding `pkg.mod` (with only
`fn`), resolving `pkg.mod.missing_fn` is an error exactly because the
attribute is missing. -/
theorem handler_resolution_exactly_witness :
    isErr (get_handler envWithFn "pkg.mod.missing_fn") = true ↔
      (moduleLocated envWithFn "pkg.mod" = false
        ∨ attributeExists envWithFn "pkg.mod" "missing_fn" = false
        ∨ attributeCallable envWithFn "pkg.mod" "missing_fn" = false) :=
  (handler_resolution_exactly envWithFn "pkg.mod.missing_fn" "pkg.mod"
      "missing_fn" clientW [] [] false).1 (by decide)

/-- C8: setting the shutdown flag is idempotent (repeated signals have the
same effect as one), a completed run of the consuming loop performs exactly
one `_disconnect` call, and a second `_disconnect` after a successful one
is a no-op with no error. -/
theorem shutdown_set_idempotent_single_disconnect (st : ClientState)
    (n : Nat) (c : SmileClient) (cb : SmileMessage → PyResult Unit)
    (flag : Bool) (sessions : List Session) :
    stopEventSet (stopEventSet st.stopFlag) = stopEventSet st.stopFlag ∧
    (signal_handler (signal_handler st n).1 n).1 = (signal_handler st n).1 ∧
    ((runLoop c cb flag sessions).1.countP isDisconnectCall
       = (if (runLoop c cb flag sessions).2 then 1 else 0)) ∧
    client_disconnect (client_disconnect st false false).1 false false
      = ((client_disconnect st false false).1, []) := by
  refine ⟨rfl, rfl, runLoop_countP_disconnect c cb flag sessions, ?_⟩
  obtain ⟨f, nc, sub⟩ := st
  cases nc <;> cases sub <;> rfl

/-- C10: changing only `client_timeout` changes nothing observable: the
connect options, the consumer configuration, the consuming loop and the
whole consumer run are identical, and the value is only ever assigned at
construction. -/
theorem client_timeout_never_read (c : SmileClient) (t : ℚ)
    (stime : Option DateTime) (cb : SmileMessage → PyResult Unit)
    (flag : Bool) (sessions : List Session) (env : PyEnv) (s : SmileSettings) :
    buildOptions { c with client_timeout := t } = buildOptions c ∧
    buildConsumerConfig { c with client_timeout := t } stime
      = buildConsumerConfig c stime ∧
    runLoop { c with client_timeout := t } cb flag sessions
      = runLoop c cb flag sessions ∧
    start_consuming env { c with client_timeout := t } sessions
      = start_consuming env c sessions ∧
    (smileClientInit s).client_timeout = s.CLIENT_TIMEOUT.getD 3600 := by
  refine ⟨rfl, ?_,
    runLoop_client_congr { c with client_timeout := t } c rfl cb flag sessions,
    ?_, rfl⟩
  · cases stime <;> rfl
  · unfold start_consuming
    have hp : ({ c with client_timeout := t } : SmileClient).handler_path
        = c.handler_path := rfl
    rw [hp]
    cases hg : get_handler env c.handler_path with
    | error e => rfl
    | ok f =>
        simp only [runLoop_client_congr { c with client_timeout := t } c rfl]

/-- Digit characters stand for their digit value, are digits, and are not
dashes. -/
theorem charOfDigit_isDigit (d : Nat) (h : d < 10) :
    (charOfDigit d).isDigit = true := by
  interval_cases d <;> decide

/-- A rendered digit is never the separator. -/
theorem charOfDigit_ne_dash (d : Nat) (h : d < 10) : charOfDigit d ≠ '-' := by
  interval_cases d <;> decide

/-- Rendering then reading a digit is the identity. -/
theorem digitToNat_charOfDigit (d : Nat) (h : d < 10) :
    digitToNat (charOfDigit d) = d := by
  interval_cases d <;> decide

/-- Every character of a rendered number is a digit and not a dash. -/
theorem digitsOfNat_mem (n : Nat) (c : Char) (hc : c ∈ digitsOfNat n) :
    c.isDigit = true ∧ c ≠ '-' := by
  simp only [digitsOfNat, List.mem_map, List.mem_reverse] at hc
  obtain ⟨d, hd, rfl⟩ := hc
  have hlt : d < 10 := Nat.digits_lt_base (by norm_num) hd
  exact ⟨charOfDigit_isDigit d hlt, charOfDigit_ne_dash d hlt⟩

/-- Characters of a padded run come from the padding or the run. -/
theorem padLeft_mem (k : Nat) (l : List Char) (c : Char)
    (hc : c ∈ padLeft k l) : c = '0' ∨ c ∈ l := by
  simp only [padLeft, List.mem_append, List.mem_replicate] at hc
  rcases hc with ⟨_, h⟩ | h
  · exact Or.inl h
  · exact Or.inr h

/-- Every character of a padded rendered number is a digit and no dash. -/
theorem padLeft_digits (k n : Nat) (c : Char)
    (hc : c ∈ padLeft k (digitsOfNat n)) : c.isDigit = true ∧ c ≠ '-' := by
  rcases padLeft_mem k _ c hc with h | h
  · subst h
    exact ⟨rfl, by decide⟩
  · exact digitsOfNat_mem n c h

/-- Padding to width `k` yields length exactly `k` when the run fits. -/
theorem padLeft_length (k : Nat) (l : List Char) (h : l.length ≤ k) :
    (padLeft k l).length = k := by
  simp [padLeft]
  omega

/-- The separator does not occur in a padded rendered number. -/
theorem dash_notin_padded (k n : Nat) : '-' ∉ padLeft k (digitsOfNat n) :=
  fun h => (padLeft_digits k n '-' h).2 rfl

/-- A padded rendered number is a nonempty digit run. -/
theorem allDigits_padded (k n : Nat) (hk : 0 < k)
    (hlen : (digitsOfNat n).length ≤ k) :
    allDigits (padLeft k (digitsOfNat n)) = true := by
  simp only [allDigits, Bool.and_eq_true, List.all_eq_true]
  refine ⟨?_, fun c hc => (padLeft_digits k n c hc).1⟩
  have hplen := padLeft_length k (digitsOfNat n) hlen
  cases hpl : padLeft k (digitsOfNat n) with
  | nil =>
      rw [hpl] at hplen
      simp at hplen
      omega
  | cons a l => simp

/-- Leading zero padding does not change the numeric value read. -/
theorem charsToNat_replicate_zero (j : Nat) (l : List Char) :
    charsToNat (List.replicate j '0' ++ l) = charsToNat l := by
  induction j with
  | zero => rfl
  | succ j ih =>
      rw [List.replicate_succ, List.cons_append]
      exact ih

/-- Reading most-significant-first digit characters computes the base-10
value, with the accumulator contributing at the correct power. -/
theorem foldl_digits_general (ds : List Nat) (a : Nat) (h : ∀ d ∈ ds, d < 10) :
    List.foldl (fun acc c => 10 * acc + digitToNat c) a
        ((ds.reverse).map charOfDigit)
      = a * 10 ^ ds.length + Nat.ofDigits 10 ds := by
  induction ds generalizing a with
  | nil => simp [Nat.ofDigits]
  | cons d ds ih =>
      have hd : d < 10 := h d (List.mem_cons_self d ds)
      have hds : ∀ x ∈ ds, x < 10 := fun x hx => h x (List.mem_cons_of_mem d hx)
      rw [List.reverse_cons, List.map_append, List.foldl_append, ih a hds]
      simp only [List.map_cons, List.map_nil, List.foldl_cons, List.foldl_nil,
        digitToNat_charOfDigit d hd, Nat.ofDigits_cons, List.length_cons]
      ring

/-- Reading back a rendered number gives the number. -/
theorem charsToNat_digitsOfNat (n : Nat) : charsToNat (digitsOfNat n) = n := by
  have h : ∀ d ∈ Nat.digits 10 n, d < 10 :=
    fun d hd => Nat.digits_lt_base (by norm_num) hd
  have hg := foldl_digits_general (Nat.digits 10 n) 0 h
  simpa [charsToNat, digitsOfNat, Nat.ofDigits_digits] using hg

/-- Reading back a padded rendered number gives the number. -/
theorem charsToNat_padLeft (k n : Nat) :
    charsToNat (padLeft k (digitsOfNat n)) = n := by
  rw [padLeft, charsToNat_replicate_zero, charsToNat_digitsOfNat]

/-- A number below `10 ^ k` renders with at most `k` digits. -/
theorem digitsOfNat_length_le (n k : Nat) (h : n < 10 ^ k) :
    (digitsOfNat n).length ≤ k := by
  rcases Nat.eq_zero_or_pos n with hn | hn
  · subst hn
    simp [digitsOfNat]
  · have hne : n ≠ 0 := Nat.pos_iff_ne_zero.mp hn
    have hlen : (Nat.digits 10 n).length = Nat.log 10 n + 1 :=
      Nat.digits_len 10 n (by norm_num) hne
    have hlog : Nat.log 10 n < k := Nat.log_lt_of_lt_pow hne h
    simp only [digitsOfNat, List.length_map, List.length_reverse, hlen]
    omega

/-- Splitting a dash-free run yields the run alone. -/
theorem splitOnDash_no_dash (l : List Char) (h : '-' ∉ l) :
    splitOnDash l = [l] := by
  induction l with
  | nil => rfl
  | cons c rest ih =>
      have hc : c ≠ '-' := fun hc => h (hc ▸ List.mem_cons_self c rest)
      have hr : '-' ∉ rest := fun hr => h (List.mem_cons_of_mem c hr)
      simp [splitOnDash, hc, ih hr]

/-- Splitting peels a dash-free run up to the first separator. -/
theorem splitOnDash_append (a rest : List Char) (h : '-' ∉ a) :
    splitOnDash (a ++ '-' :: rest) = a :: splitOnDash rest := by
  induction a with
  | nil => simp [splitOnDash]
  | cons c a ih =>
      have hc : c ≠ '-' := fun hc => h (hc ▸ List.mem_cons_self c a)
      have ha : '-' ∉ a := fun ha => h (List.mem_cons_of_mem c ha)
      simp [splitOnDash, hc, ih ha]

/-- Month lengths never exceed 31. -/
theorem daysInMonth_le_31 (y m : Nat) : daysInMonth y m ≤ 31 := by
  unfold daysInMonth
  split
  · split <;> omega
  · split <;> omega

/-- `strptime` accepts the canonical rendering of any valid date and
returns the naive datetime at midnight of that date. -/
theorem strptimeYmd_format (y m d : Nat) (hv : validDate y m d) :
    strptimeYmdChars (formatYMD y m d).data
      = some ⟨y, m, d, 0, 0, 0, 0, false⟩ := by
  obtain ⟨hy1, hy2, hm1, hm2, hd1, hd2⟩ := hv
  have hYlen : (padLeft 4 (digitsOfNat y)).length = 4 :=
    padLeft_length 4 _ (digitsOfNat_length_le y 4
      (lt_of_le_of_lt hy2 (by norm_num)))
  have hMlen : (padLeft 2 (digitsOfNat m)).length = 2 :=
    padLeft_length 2 _ (digitsOfNat_length_le m 2
      (lt_of_le_of_lt hm2 (by norm_num)))
  have hDlen : (padLeft 2 (digitsOfNat d)).length = 2 :=
    padLeft_length 2 _ (digitsOfNat_length_le d 2
      (lt_of_le_of_lt (hd2.trans (daysInMonth_le_31 y m)) (by norm_num)))
  have hsplit : splitOnDash ((formatYMD y m d).data)
      = [padLeft 4 (digitsOfNat y), padLeft 2 (digitsOfNat m),
         padLeft 2 (digitsOfNat d)] := by
    have hdata : (formatYMD y m d).data
        = padLeft 4 (digitsOfNat y)
            ++ '-' :: (padLeft 2 (digitsOfNat m) ++ '-' :: padLeft 2 (digitsOfNat d)) :=
      rfl
    rw [hdata, splitOnDash_append _ _ (dash_notin_padded 4 y),
        splitOnDash_append _ _ (dash_notin_padded 2 m),
        splitOnDash_no_dash _ (dash_notin_padded 2 d)]
  unfold strptimeYmdChars
  rw [hsplit]
  show parseFieldsYmd (padLeft 4 (digitsOfNat y)) (padLeft 2 (digitsOfNat m))
      (padLeft 2 (digitsOfNat d))
    = some ⟨y, m, d, 0, 0, 0, 0, false⟩
  unfold parseFieldsYmd
  rw [if_pos ⟨hYlen, allDigits_padded 4 y (by norm_num)
      (digitsOfNat_length_le y 4 (lt_of_le_of_lt hy2 (by norm_num))),
    Or.inr hMlen, allDigits_padded 2 m (by norm_num)
      (digitsOfNat_length_le m 2 (lt_of_le_of_lt hm2 (by norm_num))),
    Or.inr hDlen, allDigits_padded 2 d (by norm_num)
      (digitsOfNat_length_le d 2
        (lt_of_le_of_lt (hd2.trans (daysInMonth_le_31 y m)) (by norm_num)))⟩]
  simp only [charsToNat_padLeft]
  rw [if_pos ⟨hy1, hm1, hm2, hd1, hd2⟩]

/-- The canonical rendering of a date is never the empty string. -/
theorem formatYMD_not_empty (y m d : Nat) :
    (formatYMD y m d).data.isEmpty = false := by
  have hdata : (formatYMD y m d).data
      = padLeft 4 (digitsOfNat y)
          ++ '-' :: (padLeft 2 (digitsOfNat m) ++ '-' :: padLeft 2 (digitsOfNat d)) :=
    rfl
  rw [hdata]
  cases hp : padLeft 4 (digitsOfNat y) with
  | nil => simp
  | cons a l => simp

/-- C4 counterexample: the empty string is not a valid `YYYY-MM-DD` date
(`strptime` rejects it), yet start-date parsing does not fail on it — the
`if not date_str` guard returns "no start date", so the consumer proceeds
(with `new` delivery) instead of failing with a descriptive error. -/
theorem empty_date_string_not_rejected_cex :
    strptimeYmdChars ("" : String).data = none ∧
    parse_start_date (some "") = Except.ok none :=
  ⟨rfl, rfl⟩

/-- C4 (amended): for every calendar-valid date, parsing its `YYYY-MM-DD`
rendering returns UTC midnight (00:00:00, UTC) of that date; an absent or
empty date string is treated as "no start date" rather than as an error;
every other string rejected by `strptime("%Y-%m-%d")` fails with a
descriptive error; and a parse failure propagates out of `start_listener`
before any connect attempt is made. -/
theorem parse_start_date_utc_midnight (y m d : Nat) (hv : validDate y m d)
    (s e : String) (config : SmileSettings) (env : PyEnv)
    (sessions : List Session) :
    parse_start_date (some (formatYMD y m d))
      = Except.ok (some (utcMidnight y m d)) ∧
    parse_start_date none = Except.ok none ∧
    (s.data.isEmpty = false → strptimeYmdChars s.data = none →
       parse_start_date (some s)
         = Except.error ("Invalid date format: " ++ s
             ++ ". Expected YYYY-MM-DD format.")) ∧
    (parse_start_date (some s) = Except.error e →
       start_listener config env (some s) sessions = Except.error e) := by
  refine ⟨?_, rfl, ?_, ?_⟩
  · show parse_start_date_str (formatYMD y m d)
      = Except.ok (some (utcMidnight y m d))
    unfold parse_start_date_str
    rw [if_neg (by simp [formatYMD_not_empty y m d])]
    rw [strptimeYmd_format y m d hv]
    rfl
  · intro h1 h2
    show parse_start_date_str s
      = Except.error ("Invalid date format: " ++ s
          ++ ". Expected YYYY-MM-DD format.")
    unfold parse_start_date_str
    rw [if_neg (by simp [h1]), h2]
  · intro hp
    simp [start_listener, hp]

/-- C4 witness: the amended theorem applied to 2024-01-01. -/
theorem parse_start_date_utc_midnight_witness :
    parse_start_date (some (formatYMD 2024 1 1))
      = Except.ok (some (utcMidnight 2024 1 1)) :=
  (parse_start_date_utc_midnight 2024 1 1 (by unfold validDate; decide)
    "x" "err" settingsW envEmpty []).1
